import Mathlib

/-!
Verification development for the marmot Terraform provider
(internal/provider: asset_resource.go, glossary_resource.go,
lineage_resource.go).

The development shallowly embeds the converter functions and the CRUD
handler bodies of the provider package.  Terraform framework values
(types.String, types.Set, types.Map, ...) are embedded as explicit
three-state inductives (null / unknown / value), the wire model as plain
structures, and each handler as a pure function from its decoded input
(and the response the API client would return) to the diagnostics it
appends, the state it stores, and the list of API calls it performs.

Machine integers of the source (int64 and friends) are modelled as Int;
none of the embedded code paths can overflow them, since the source only
moves such values around without arithmetic.
-/

/-! ## Terraform framework values

Each attribute value of the plugin framework is null, unknown, or a
concrete value.  ValueString and friends of the framework return the
zero value on null or unknown, which the val functions below mirror. -/

inductive TFString where
  | null
  | unknown
  | value (s : String)
deriving DecidableEq, Repr

inductive TFBool where
  | null
  | unknown
  | value (b : Bool)
deriving DecidableEq, Repr

inductive TFInt where
  | null
  | unknown
  | value (n : Int)
deriving DecidableEq, Repr

inductive TFSet where
  | null
  | unknown
  | value (elems : List String)
deriving DecidableEq, Repr

inductive TFMap where
  | null
  | unknown
  | value (elems : List (String × TFString))
deriving DecidableEq, Repr

def TFString.valueString : TFString → String
  | .value s => s
  | _ => ""

def TFString.isNullOrUnknown : TFString → Bool
  | .value _ => false
  | _ => true

def TFInt.valueInt : TFInt → Int
  | .value n => n
  | _ => 0

def TFInt.isNullOrUnknown : TFInt → Bool
  | .value _ => false
  | _ => true

def TFSet.isNullOrUnknown : TFSet → Bool
  | .value _ => false
  | _ => true

def TFSet.elemsOrEmpty : TFSet → List String
  | .value l => l
  | _ => []

def TFMap.isNullOrUnknown : TFMap → Bool
  | .value _ => false
  | _ => true

def TFMap.elemsOrEmpty : TFMap → List (String × TFString)
  | .value l => l
  | _ => []

/-! ## Lexicographic string order and sorting

The source calls sort.Strings, which sorts ascending in the
lexicographic byte order.  The order is embedded as the lexicographic
order on the character lists of the strings (UTF-8 byte order and code
point order agree), written as a structurally recursive Bool so that
the kernel can evaluate it on concrete inputs. -/

def lexLEb : List Char → List Char → Bool
  | [], _ => true
  | _ :: _, [] => false
  | a :: as, b :: bs =>
    if a.toNat < b.toNat then true
    else if b.toNat < a.toNat then false
    else lexLEb as bs

theorem lexLEb_total : ∀ a b, lexLEb a b = true ∨ lexLEb b a = true
  | [], _ => Or.inl rfl
  | _ :: _, [] => Or.inr rfl
  | a :: as, b :: bs => by
    by_cases hab : a.toNat < b.toNat
    · left; simp [lexLEb, hab]
    · by_cases hba : b.toNat < a.toNat
      · right; simp [lexLEb, hba]
      · rcases lexLEb_total as bs with ih | ih
        · left; simp [lexLEb, hab, hba, ih]
        · right; simp [lexLEb, hab, hba, ih]

theorem lexLEb_trans : ∀ a b c, lexLEb a b = true → lexLEb b c = true → lexLEb a c = true
  | [], _, _, _, _ => rfl
  | _ :: _, [], _, h, _ => by simp [lexLEb] at h
  | _ :: _, _ :: _, [], _, h => by simp [lexLEb] at h
  | a :: as, b :: bs, c :: cs, h1, h2 => by
    simp only [lexLEb] at h1 h2 ⊢
    by_cases hab : a.toNat < b.toNat <;> by_cases hba : b.toNat < a.toNat <;>
      by_cases hbc : b.toNat < c.toNat <;> by_cases hcb : c.toNat < b.toNat <;>
      simp [hab, hba, hbc, hcb] at h1 h2 ⊢ <;>
      first
        | omega
        | (have hac : a.toNat < c.toNat := by omega
           simp [hac])
        | (have hac : ¬ a.toNat < c.toNat := by omega
           have hca : ¬ c.toNat < a.toNat := by omega
           simp [hac, hca]
           first
             | exact lexLEb_trans as bs cs h1 h2
             | exact ⟨by omega, lexLEb_trans as bs cs h1 h2⟩)

def strLE (a b : String) : Prop := lexLEb a.data b.data = true

instance : DecidableRel strLE := fun a b => instDecidableEqBool (lexLEb a.data b.data) true

instance : IsTotal String strLE := ⟨fun a b => lexLEb_total a.data b.data⟩

instance : IsTrans String strLE := ⟨fun a b c => lexLEb_trans a.data b.data c.data⟩

/-- Embeds sort.Strings of the Go standard library (quicksort there,
insertion sort here: both produce the unique sorted arrangement of a
list of strings, and duplicate strings are indistinguishable). -/
def sortStr (l : List String) : List String := l.insertionSort strLE

theorem sortStr_sorted (l : List String) : List.Sorted strLE (sortStr l) :=
  List.sorted_insertionSort strLE l

theorem sortStr_idem (l : List String) : sortStr (sortStr l) = sortStr l :=
  (sortStr_sorted l).insertionSort_eq

theorem sortStr_nil : sortStr [] = [] := rfl

/-! ## Decimal rendering

Helpers mirroring the fmt verbs used by the source: percent-d on
integers, percent-t on booleans, and a fixed six-decimal percent-f on
floating point values.  All are structurally recursive so concrete
instances evaluate in the kernel. -/

def natDecAux : Nat → Nat → List Char → List Char
  | 0, _, acc => acc
  | fuel + 1, n, acc =>
    if n < 10 then Char.ofNat (48 + n) :: acc
    else natDecAux fuel (n / 10) (Char.ofNat (48 + n % 10) :: acc)

/-- Decimal rendering of a natural number. -/
def natDec (n : Nat) : String :=
  String.mk (natDecAux (n + 1) n [])

/-- Embeds the percent-d fmt verb on a (signed) integer. -/
def intDec (n : Int) : String :=
  if n < 0 then "-" ++ natDec n.natAbs else natDec n.natAbs

/-- Decimal rendering of a natural number, zero padded on the left to
the given width (used for the two-digit and six-digit fields of the
timestamp layout and the fraction of the six-decimal float format). -/
def decPad (width : Nat) (n : Nat) : String :=
  let s := natDec n
  String.mk (List.replicate (width - s.length) '0') ++ s

/-- Rounds num / den (den > 0 intended) to the nearest integer, ties to
even, the rounding strconv uses for the fixed-precision percent-f verb. -/
def roundHalfEven (num den : Nat) : Nat :=
  let q := num / den
  let r := num % den
  if den < 2 * r then q + 1
  else if 2 * r < den then q
  else if q % 2 = 0 then q else q + 1

/-- Embeds the percent-.6f fmt verb.  The float64 argument of the source
is modelled as the rational value num / den it denotes; the rendering is
the sign, the integer part, a point, and exactly six fraction digits,
rounded half to even. -/
def fmtFloat6 (num : Int) (den : Nat) : String :=
  let d := max den 1
  let m := roundHalfEven (num.natAbs * 1000000) d
  (if num < 0 then "-" else "") ++ natDec (m / 1000000) ++ "." ++ decPad 6 (m % 1000000)

/-! ## Heterogeneous wire values

Values of the weakly typed map[string]interface sections of the wire
model (metadata, per-source properties, per-environment metadata).  The
int constructor covers the int, int32 and int64 cases of the type
switch in convertMapToStringMapSorted, the float constructor covers
float32 and float64 (carried as the rational the float denotes), and
the other constructor carries the percent-v rendering of a value of any
remaining kind as an opaque string. -/

inductive WireVal where
  | vnil
  | vstr (s : String)
  | vint (n : Int)
  | vfloat (num : Int) (den : Nat)
  | vbool (b : Bool)
  | vother (rendered : String)
deriving DecidableEq, Repr

/-- Embeds the per-entry body of the loop of convertMapToStringMapSorted
(asset_resource.go:801-821): nil values are dropped, strings are kept
when non-empty, integers are rendered percent-d, floats percent-.6f,
booleans percent-t, and any other kind percent-v and kept when the
rendering is non-empty.  Returns none exactly when the entry is dropped. -/
def coerceVal : WireVal → Option String
  | .vnil => none
  | .vstr s => if s = "" then none else some s
  | .vint n => some (intDec n)
  | .vfloat num den => some (fmtFloat6 num den)
  | .vbool b => some (if b then "true" else "false")
  | .vother r => if r = "" then none else some r

def keyLE (a b : String × WireVal) : Prop := strLE a.1 b.1

instance : DecidableRel keyLE := fun a b => inferInstanceAs (Decidable (strLE a.1 b.1))

/-- Embeds convertMapToStringMapSorted (asset_resource.go:788-824).  A
Go map is embedded as an association list with pairwise distinct keys;
collecting the keys, sorting them, and looking each key up again is
embedded as sorting the entries by key.  The function never reports a
diagnostic in the source (its signature has no diagnostics channel),
which the Lean result type mirrors. -/
def convertMapToStringMapSorted (m : List (String × WireVal)) : List (String × String) :=
  (m.insertionSort keyLE).filterMap fun kv => (coerceVal kv.2).map fun s => (kv.1, s)

/-! ## Timestamp normalization

Embeds normalizeTimestamp (asset_resource.go:661-670): parse the input
against the RFC3339Nano layout and, on success, re-render it with the
layout 2006-01-02T15:04:05.000000Z07:00; on failure return the input
unchanged.  Note the source does not convert the parsed time to UTC, so
the re-rendering keeps the parsed offset; the Z of the layout prints as
the literal Z exactly when the offset is zero.  The fraction is
truncated (not rounded) to six digits, as the Format method of the time
package does. -/

structure ParsedTime where
  year : Nat
  month : Nat
  day : Nat
  hour : Nat
  minute : Nat
  second : Nat
  nanos : Nat
  offsetMinutes : Int
deriving DecidableEq, Repr

def isDigitCh (c : Char) : Bool := 48 ≤ c.toNat && c.toNat ≤ 57

def digitVal (c : Char) : Nat := c.toNat - 48

/-- Reads exactly k digits from the front of the character list,
returning their value and the rest. -/
def takeDigits : Nat → Nat → List Char → Option (Nat × List Char)
  | 0, acc, cs => some (acc, cs)
  | k + 1, acc, c :: cs =>
    if isDigitCh c then takeDigits k (acc * 10 + digitVal c) cs else none
  | _ + 1, _, [] => none

def expectCh (c : Char) : List Char → Option (List Char)
  | d :: cs => if d = c then some cs else none
  | [] => none

def isLeapYear (y : Nat) : Bool :=
  (y % 4 = 0 && y % 100 ≠ 0) || y % 400 = 0

def daysInMonth (y m : Nat) : Nat :=
  if m = 2 then (if isLeapYear y then 29 else 28)
  else if m = 4 ∨ m = 6 ∨ m = 9 ∨ m = 11 then 30
  else 31

/-- Parses the fractional-seconds digits: the value of the digit run
scaled to nanoseconds.  The time package consumes at most nine digits,
so a longer run fails the parse. -/
def parseFraction (cs : List Char) : Option (Nat × List Char) :=
  let ds := cs.takeWhile isDigitCh
  let rest := cs.dropWhile isDigitCh
  if ds.length = 0 ∨ 9 < ds.length then none
  else
    let v := ds.foldl (fun acc c => acc * 10 + digitVal c) 0
    some (v * 10 ^ (9 - ds.length), rest)

def parseOffset (cs : List Char) : Option (Int × List Char) :=
  match cs with
  | 'Z' :: rest => some (0, rest)
  | '+' :: rest =>
    (takeDigits 2 0 rest).bind fun (hh, r1) =>
    (expectCh ':' r1).bind fun r2 =>
    (takeDigits 2 0 r2).map fun (mm, r3) => (((hh * 60 + mm : Nat) : Int), r3)
  | '-' :: rest =>
    (takeDigits 2 0 rest).bind fun (hh, r1) =>
    (expectCh ':' r1).bind fun r2 =>
    (takeDigits 2 0 r2).map fun (mm, r3) => (-((hh * 60 + mm : Nat) : Int), r3)
  | _ => none

/-- Embeds parsing against the RFC3339Nano layout
(2006-01-02T15:04:05.999999999Z07:00): four digit year, dashes, the
literal T, colons, an optional fraction after a point or a comma (the
lenient fallback parser of the time package accepts either separator
for the fractional seconds), and the literal Z or a signed hh:mm
offset, with the range checks the time package performs on year, month,
day, hour, minute and second. -/
def parseRFC3339Nano (s : String) : Option ParsedTime :=
  (takeDigits 4 0 s.data).bind fun (y, r1) =>
  (expectCh '-' r1).bind fun r2 =>
  (takeDigits 2 0 r2).bind fun (mo, r3) =>
  (expectCh '-' r3).bind fun r4 =>
  (takeDigits 2 0 r4).bind fun (d, r5) =>
  (expectCh 'T' r5).bind fun r6 =>
  (takeDigits 2 0 r6).bind fun (h, r7) =>
  (expectCh ':' r7).bind fun r8 =>
  (takeDigits 2 0 r8).bind fun (mi, r9) =>
  (expectCh ':' r9).bind fun r10 =>
  (takeDigits 2 0 r10).bind fun (sec, r11) =>
  (match r11 with
   | '.' :: r12 => parseFraction r12
   | ',' :: r12 => parseFraction r12
   | _ => some (0, r11)).bind fun (ns, r13) =>
  (parseOffset r13).bind fun (off, r14) =>
  if r14 = [] ∧ 1 ≤ mo ∧ mo ≤ 12 ∧ 1 ≤ d ∧ d ≤ daysInMonth y mo ∧
      h ≤ 23 ∧ mi ≤ 59 ∧ sec ≤ 59 then
    some ⟨y, mo, d, h, mi, sec, ns, off⟩
  else none

def fmtOffset (off : Int) : String :=
  if off = 0 then "Z"
  else (if off < 0 then "-" else "+") ++
    decPad 2 (off.natAbs / 60) ++ ":" ++ decPad 2 (off.natAbs % 60)

def renderMicroLayout (t : ParsedTime) : String :=
  decPad 4 t.year ++ "-" ++ decPad 2 t.month ++ "-" ++ decPad 2 t.day ++ "T" ++
  decPad 2 t.hour ++ ":" ++ decPad 2 t.minute ++ ":" ++ decPad 2 t.second ++ "." ++
  decPad 6 (t.nanos / 1000) ++ fmtOffset t.offsetMinutes

/-- Embeds normalizeTimestamp (asset_resource.go:661-670). -/
def normalizeTimestamp (timestamp : String) : String :=
  if timestamp = "" then ""
  else
    match parseRFC3339Nano timestamp with
    | none => timestamp
    | some t => renderMicroLayout t

/-! ## Asset wire model

Shapes of the generated client consumed by asset_resource.go: the
AssetAsset response payload and the create and update request bodies.
Go nil slices and empty slices are indistinguishable to the source
(only len is consulted), so both are embedded as the empty list; the
interface-typed metadata sections are embedded as an Option that is
some exactly when the Go type assertion to map[string]interface
succeeds with a non-nil map. -/

structure ExternalLinkWire where
  icon : String
  name : String
  url : String
deriving DecidableEq, Repr

structure SourceWire where
  name : String
  priority : Int
  properties : Option (List (String × WireVal))
deriving DecidableEq, Repr

structure EnvironmentWire where
  name : String
  path : String
  metadata : Option (List (String × WireVal))
deriving DecidableEq, Repr

structure AssetWire where
  id : String
  name : String
  typ : String
  description : String
  userDescription : String
  parentMrn : String
  query : String
  queryLanguage : String
  hasRunHistory : Bool
  isStub : Bool
  createdAt : String
  createdBy : String
  updatedAt : String
  lastSyncAt : String
  mrn : String
  providers : List String
  tags : List String
  metadata : Option (List (String × WireVal))
  schema : List (String × String)
  externalLinks : List ExternalLinkWire
  sources : List SourceWire
  environments : List (String × EnvironmentWire)
deriving DecidableEq, Repr

/-! ## Asset declarative state model

Embeds AssetResourceModel and its nested models.  The external link and
source lists distinguish the Go nil slice (none) from a present slice
(some), and the environments map distinguishes a nil map from an empty
one, because updateModelFromResponse stores nil for empty link and
source lists but an empty non-nil map for empty environments. -/

structure ExternalLinkModel where
  icon : TFString
  name : TFString
  url : TFString
deriving DecidableEq, Repr

structure AssetSourceModel where
  name : TFString
  priority : TFInt
  properties : TFMap
deriving DecidableEq, Repr

structure AssetEnvironmentModel where
  name : TFString
  path : TFString
  metadata : TFMap
deriving DecidableEq, Repr

structure AssetResourceModel where
  name : TFString
  typ : TFString
  description : TFString
  userDescription : TFString
  services : TFSet
  tags : TFSet
  metadata : TFMap
  schema : TFMap
  externalLinks : Option (List ExternalLinkModel)
  sources : Option (List AssetSourceModel)
  environments : Option (List (String × AssetEnvironmentModel))
  id : TFString
  createdAt : TFString
  createdBy : TFString
  updatedAt : TFString
  lastSyncAt : TFString
  mrn : TFString
  parentMrn : TFString
  query : TFString
  queryLanguage : TFString
  hasRunHistory : TFBool
  isStub : TFBool
deriving DecidableEq, Repr

/-! ## Outbound converters (state to wire request) -/

/-- Entries of a declarative string map that survive the null and
unknown drop of mapToDictionary. -/
def mapSurvivors (l : List (String × TFString)) : List (String × String) :=
  l.filterMap fun kv =>
    match kv.2 with
    | .value s => some (kv.1, s)
    | _ => none

def tfPairLE (a b : String × TFString) : Prop := strLE a.1 b.1

instance : DecidableRel tfPairLE := fun a b => inferInstanceAs (Decidable (strLE a.1 b.1))

/-- Embeds mapToDictionary (asset_resource.go:597-635): nil for a null
or unknown map and for a zero-entry map; otherwise iterate the keys in
sorted order keeping entries whose value is neither null nor unknown,
and return nil again when nothing survives.  An element of the embedded
map is a TFString by construction (the schema declares the element type
as string), so the Type Conversion Error branch of the source, taken
when an element is not a StringValue, has no embedded counterpart and
the result carries no diagnostics. -/
def mapToDictionary (tfMap : TFMap) : Option (List (String × String)) :=
  match tfMap with
  | .null => none
  | .unknown => none
  | .value l =>
    if l.isEmpty then none
    else
      let kept := mapSurvivors (l.insertionSort tfPairLE)
      if kept.isEmpty then none else some kept

/-- Embeds mapToStringMap (asset_resource.go:637-659): same shape as
mapToDictionary but without the key sort (the source iterates the Go
map directly; the embedding keeps the entry order of the association
list, which a Go map does not have, but no theorem depends on it). -/
def mapToStringMap (tfMap : TFMap) : Option (List (String × String)) :=
  match tfMap with
  | .null => none
  | .unknown => none
  | .value l =>
    if l.isEmpty then none
    else
      let kept := mapSurvivors l
      if kept.isEmpty then none else some kept

/-- Embeds convertExternalLinks (asset_resource.go:533-552): nil for an
absent or empty list, else one wire link per model link with a null or
unknown icon collapsed to the empty string. -/
def convertExternalLinks (links : Option (List ExternalLinkModel)) :
    Option (List ExternalLinkWire) :=
  let l := links.getD []
  if l.isEmpty then none
  else some (l.map fun link =>
    { icon := if link.icon.isNullOrUnknown then "" else link.icon.valueString
      name := link.name.valueString
      url := link.url.valueString })

structure SourceRequest where
  name : String
  priority : Int
  properties : Option (List (String × String))
deriving DecidableEq, Repr

structure EnvironmentRequest where
  name : String
  path : String
  metadata : Option (List (String × String))
deriving DecidableEq, Repr

/-- Embeds convertSources (asset_resource.go:554-576): nil for an
absent or empty list, else one wire source per model source with a null
or unknown priority defaulted to zero and the properties run through
mapToDictionary. -/
def convertSources (sources : Option (List AssetSourceModel)) :
    Option (List SourceRequest) :=
  let l := sources.getD []
  if l.isEmpty then none
  else some (l.map fun source =>
    { name := source.name.valueString
      priority := if source.priority.isNullOrUnknown then 0 else source.priority.valueInt
      properties := mapToDictionary source.properties })

/-- Embeds convertEnvironments (asset_resource.go:578-595): nil for an
absent or empty map, else one wire environment per model environment
with the metadata run through mapToDictionary. -/
def convertEnvironments (environments : Option (List (String × AssetEnvironmentModel))) :
    Option (List (String × EnvironmentRequest)) :=
  let l := environments.getD []
  if l.isEmpty then none
  else some (l.map fun kv =>
    (kv.1,
     { name := kv.2.name.valueString
       path := kv.2.path.valueString
       metadata := mapToDictionary kv.2.metadata }))

structure AssetsCreateRequest where
  name : String
  typ : String
  description : String
  providers : List String
  tags : List String
  metadata : Option (List (String × String))
  schema : Option (List (String × String))
  externalLinks : Option (List ExternalLinkWire)
  sources : Option (List SourceRequest)
  environments : Option (List (String × EnvironmentRequest))
deriving DecidableEq, Repr

structure AssetsUpdateRequest where
  name : String
  typ : String
  description : String
  userDescription : String
  providers : List String
  tags : List String
  metadata : Option (List (String × String))
  schema : Option (List (String × String))
  externalLinks : Option (List ExternalLinkWire)
  sources : Option (List SourceRequest)
  environments : Option (List (String × EnvironmentRequest))
deriving DecidableEq, Repr

/-- Embeds toCreateRequest (asset_resource.go:451-489): services are
read from the set and sorted; tags likewise but only when the tag set
is neither null nor unknown (otherwise the nil slice goes out, embedded
as the empty list, which serializes identically). -/
def toCreateRequest (data : AssetResourceModel) : AssetsCreateRequest :=
  { name := data.name.valueString
    typ := data.typ.valueString
    description := data.description.valueString
    providers := sortStr data.services.elemsOrEmpty
    tags := if data.tags.isNullOrUnknown then [] else sortStr data.tags.elemsOrEmpty
    metadata := mapToDictionary data.metadata
    schema := mapToStringMap data.schema
    externalLinks := convertExternalLinks data.externalLinks
    sources := convertSources data.sources
    environments := convertEnvironments data.environments }

/-- Embeds toUpdateRequest (asset_resource.go:491-531); identical to
toCreateRequest except for the extra user description, collapsed to the
empty string when null or unknown. -/
def toUpdateRequest (data : AssetResourceModel) : AssetsUpdateRequest :=
  { name := data.name.valueString
    typ := data.typ.valueString
    description := data.description.valueString
    userDescription :=
      if data.userDescription.isNullOrUnknown then "" else data.userDescription.valueString
    providers := sortStr data.services.elemsOrEmpty
    tags := if data.tags.isNullOrUnknown then [] else sortStr data.tags.elemsOrEmpty
    metadata := mapToDictionary data.metadata
    schema := mapToStringMap data.schema
    externalLinks := convertExternalLinks data.externalLinks
    sources := convertSources data.sources
    environments := convertEnvironments data.environments }

/-! ## Inbound converters (wire response to state) -/

/-- Collapses an empty wire string to null and keeps a non-empty one,
the tri-state pattern the inbound converters apply to their optional
scalar fields. -/
def emptyToNull (s : String) : TFString :=
  if s = "" then .null else .value s

/-- Embeds the per-link body of convertModelExternalLinks
(asset_resource.go:826-845). -/
def modelExternalLink (link : ExternalLinkWire) : ExternalLinkModel :=
  { icon := emptyToNull link.icon
    name := .value link.name
    url := .value link.url }

/-- Embeds convertModelExternalLinks (asset_resource.go:826-845). -/
def convertModelExternalLinks (links : List ExternalLinkWire) : List ExternalLinkModel :=
  links.map modelExternalLink

/-- Embeds the interface-map to declarative-map step shared by
convertModelSources and convertModelEnvironments: a successful type
assertion to a non-nil non-empty map converts through
convertMapToStringMapSorted, anything else becomes a null map. -/
def wireMapOrNull (m : Option (List (String × WireVal))) : TFMap :=
  match m with
  | some l => if l.isEmpty then .null else
      .value ((convertMapToStringMapSorted l).map fun kv => (kv.1, .value kv.2))
  | none => .null

/-- Embeds convertModelSources (asset_resource.go:847-871). -/
def convertModelSources (sources : List SourceWire) : List AssetSourceModel :=
  sources.map fun source =>
    { name := .value source.name
      priority := .value source.priority
      properties := wireMapOrNull source.properties }

/-- Embeds convertModelEnvironments (asset_resource.go:873-897). -/
def convertModelEnvironments (environments : List (String × EnvironmentWire)) :
    List (String × AssetEnvironmentModel) :=
  environments.map fun kv =>
    (kv.1,
     { name := .value kv.2.name
       path := .value kv.2.path
       metadata := wireMapOrNull kv.2.metadata })

/-- Embeds updateModelFromResponse (asset_resource.go:672-786).  The
SetValueFrom, MapValueFrom and similar framework constructors cannot
fail on string data, so the function is embedded as pure: the source
diagnostics stay empty on every embedded path. -/
def updateModelFromResponse (model : AssetResourceModel) (asset : AssetWire) :
    AssetResourceModel :=
  { model with
    id := .value asset.id
    name := .value asset.name
    typ := .value asset.typ
    description := .value asset.description
    createdAt := .value (normalizeTimestamp asset.createdAt)
    createdBy := .value asset.createdBy
    updatedAt := .value (normalizeTimestamp asset.updatedAt)
    mrn := .value asset.mrn
    userDescription := emptyToNull asset.userDescription
    parentMrn := emptyToNull asset.parentMrn
    query := emptyToNull asset.query
    queryLanguage := emptyToNull asset.queryLanguage
    hasRunHistory := .value asset.hasRunHistory
    isStub := .value asset.isStub
    lastSyncAt :=
      if asset.lastSyncAt = "" then .null else .value (normalizeTimestamp asset.lastSyncAt)
    services :=
      if asset.providers.isEmpty then .value [] else .value (sortStr asset.providers)
    tags :=
      if asset.tags.isEmpty then .value [] else .value (sortStr asset.tags)
    metadata :=
      match asset.metadata with
      | some l =>
        if l.isEmpty then .value []
        else .value ((convertMapToStringMapSorted l).map fun kv => (kv.1, .value kv.2))
      | none => .value []
    schema :=
      if asset.schema.isEmpty then .value []
      else .value (asset.schema.map fun kv => (kv.1, .value kv.2))
    externalLinks :=
      if asset.externalLinks.isEmpty then none
      else some (convertModelExternalLinks asset.externalLinks)
    sources :=
      if asset.sources.isEmpty then none
      else some (convertModelSources asset.sources)
    environments :=
      if asset.environments.isEmpty then some []
      else some (convertModelEnvironments asset.environments) }

/-! ## Glossary term resource

Embeds the wire and state shapes of glossary_resource.go and its
inbound converter.  The outbound converters of that file build their
request inline and never touch their diagnostics value; no claim
depends on the request contents, so only the response conversion is
embedded. -/

structure OwnerWire where
  id : String
  typ : String
deriving DecidableEq, Repr

structure GlossaryWire where
  id : String
  name : String
  definition : String
  description : String
  parentTermID : String
  createdAt : String
  updatedAt : String
  owners : List OwnerWire
  metadata : Option (List (String × WireVal))
deriving DecidableEq, Repr

structure OwnerModel where
  id : TFString
  typ : TFString
deriving DecidableEq, Repr

structure GlossaryResourceModel where
  name : TFString
  definition : TFString
  description : TFString
  parentTermID : TFString
  owners : Option (List OwnerModel)
  metadata : TFMap
  id : TFString
  createdAt : TFString
  updatedAt : TFString
deriving DecidableEq, Repr

/-- Drops the trailing fraction zeros (and a then-trailing point) of a
fixed-precision rendering. -/
def trimTrailingZeros (s : String) : String :=
  if s.data.contains '.' then
    String.mk (((s.data.reverse.dropWhile (· = '0')).dropWhile (· = '.')).reverse)
  else s

/-- Embeds the percent-v fmt verb on an interface value as used by the
glossary metadata loop (glossary_resource.go:415-421): a string is kept
as is, an integer renders decimal, a boolean as true or false, nil as
the angle-bracket nil text, and a value of any other kind carries its
rendering opaquely.  A float renders in the shortest-decimal style; the
embedding renders the denoted rational with the fraction trimmed, which
agrees with the fmt output on the exactly representable decimal values
the embedded theorems touch (no theorem depends on this case). -/
def goFmtV : WireVal → String
  | .vnil => "<nil>"
  | .vstr s => s
  | .vint n => intDec n
  | .vfloat num den => trimTrailingZeros (fmtFloat6 num den)
  | .vbool b => if b then "true" else "false"
  | .vother r => r

/-- Embeds updateModelFromResponse of glossary_resource.go:379-430.
Unlike the asset counterpart, an absent or empty wire metadata map
becomes a null declarative map, and present entries are kept verbatim
(string values as is, other kinds through percent-v, nothing dropped
and no key sort). -/
def glossaryUpdateModelFromResponse (model : GlossaryResourceModel)
    (term : GlossaryWire) : GlossaryResourceModel :=
  { model with
    id := .value term.id
    name := .value term.name
    definition := .value term.definition
    createdAt := .value term.createdAt
    updatedAt := .value term.updatedAt
    description := emptyToNull term.description
    parentTermID := emptyToNull term.parentTermID
    owners :=
      if term.owners.isEmpty then none
      else some (term.owners.map fun o => { id := .value o.id, typ := .value o.typ })
    metadata :=
      match term.metadata with
      | some l =>
        if l.isEmpty then .null
        else .value (l.map fun kv => (kv.1, .value (goFmtV kv.2)))
      | none => .null }

/-! ## Lineage resource

Embeds the two lineage resource files present in the repository: the
one at internal/provider/lineage_resource.go (model with a computed
type attribute, no replace plan modifiers, and an Update that stores
the plan without a diagnostic) and the variant file (three-field model,
RequiresReplace on source and target, and an Update that only reports
an Update Not Supported diagnostic). -/

structure LineageResourceModel where
  source : TFString
  target : TFString
  resourceID : TFString
  typ : TFString
deriving DecidableEq, Repr

structure LineageResourceModelLegacy where
  source : TFString
  target : TFString
  resourceID : TFString
deriving DecidableEq, Repr

structure LineagePayload where
  id : String
  typ : String
deriving DecidableEq, Repr

/-! ## CRUD handler embedding

Each handler is a function from its decoded plan or state (the Get
calls of the framework cannot fail on a well-typed record, so the
decoded record is the input) and from the result the API client call
would return, to the diagnostics the handler appends, the state record
it stores (none when it returns without storing), and the API calls it
performs, in order. -/

structure Diag where
  summary : String
  detail : String
deriving DecidableEq, Repr

inductive ApiCall where
  | postAssets
  | getAsset (id : String)
  | putAsset (id : String)
  | deleteAsset (id : String)
  | postGlossary
  | getGlossary (id : String)
  | putGlossary (id : String)
  | deleteGlossary (id : String)
  | postLineage (source target : String)
  | getLineage (id : String)
  | deleteLineage (id : String)
deriving DecidableEq, Repr

structure OpResult (σ : Type) where
  diags : List Diag
  newState : Option σ
  calls : List ApiCall
deriving DecidableEq, Repr

/-- Outcome of a delete endpoint on the service side. -/
inductive ServiceOutcome where
  | ok
  | notFound
  | failure (msg : String)
deriving DecidableEq, Repr

/-- Modelled from the spec: the generated REST client
(internal/client, not part of the provided sources) is the code that
decides whether a not-found response from a delete endpoint surfaces as
a Go error to the handlers.  The spec states that absence of the entity
server side during delete is treated as success (idempotent deletion),
so the modelled client maps the not-found outcome to no error and any
other failure to its message. -/
def clientDeleteErr : ServiceOutcome → Option String
  | .ok => none
  | .notFound => none
  | .failure m => some m

/-- Embeds Create of asset_resource.go:314-352 after the plan decode:
convert (the embedded conversion reports no diagnostics, see
toCreateRequest), call PostAssets, fail on a client error, fail when
the returned payload carries an empty ID, else store the converted
response. -/
def assetCreate (plan : AssetResourceModel) (resp : Except String AssetWire) :
    OpResult AssetResourceModel :=
  match resp with
  | .error e =>
    { diags := [⟨"Client Error", "Unable to create asset: " ++ e⟩],
      newState := none, calls := [.postAssets] }
  | .ok w =>
    if w.id = "" then
      { diags := [⟨"API Error", "Asset created but no ID returned"⟩],
        newState := none, calls := [.postAssets] }
    else
      { diags := [], newState := some (updateModelFromResponse plan w),
        calls := [.postAssets] }

/-- Embeds Delete of asset_resource.go:427-445: one DeleteAssetsID call
with the stored ID; a client error becomes a diagnostic, otherwise no
diagnostic, and no state is stored either way (the framework drops the
state of a successful delete itself). -/
def assetDelete (state : AssetResourceModel) (err : Option String) :
    OpResult AssetResourceModel :=
  match err with
  | some e =>
    { diags := [⟨"Client Error", "Unable to delete asset: " ++ e⟩],
      newState := none, calls := [.deleteAsset state.id.valueString] }
  | none =>
    { diags := [], newState := none, calls := [.deleteAsset state.id.valueString] }

/-- Embeds Create of glossary_resource.go:151-189, of the same shape as
the asset Create including the empty-ID check. -/
def glossaryCreate (plan : GlossaryResourceModel) (resp : Except String GlossaryWire) :
    OpResult GlossaryResourceModel :=
  match resp with
  | .error e =>
    { diags := [⟨"Client Error", "Unable to create glossary term: " ++ e⟩],
      newState := none, calls := [.postGlossary] }
  | .ok w =>
    if w.id = "" then
      { diags := [⟨"API Error", "Glossary term created but no ID returned"⟩],
        newState := none, calls := [.postGlossary] }
    else
      { diags := [], newState := some (glossaryUpdateModelFromResponse plan w),
        calls := [.postGlossary] }

/-- Embeds Delete of glossary_resource.go:264-282. -/
def glossaryDelete (state : GlossaryResourceModel) (err : Option String) :
    OpResult GlossaryResourceModel :=
  match err with
  | some e =>
    { diags := [⟨"Client Error", "Unable to delete glossary term: " ++ e⟩],
      newState := none, calls := [.deleteGlossary state.id.valueString] }
  | none =>
    { diags := [], newState := none, calls := [.deleteGlossary state.id.valueString] }

/-- Embeds Create of lineage_resource.go:93-116: one PostLineageDirect
call; on success the returned ID and type are stored unconditionally
(there is no empty-ID check in this handler). -/
def lineageCreate (plan : LineageResourceModel) (resp : Except String LineagePayload) :
    OpResult LineageResourceModel :=
  match resp with
  | .error e =>
    { diags := [⟨"Client Error", "Unable to create lineage: " ++ e⟩],
      newState := none,
      calls := [.postLineage plan.source.valueString plan.target.valueString] }
  | .ok p =>
    { diags := [],
      newState := some { plan with resourceID := .value p.id, typ := .value p.typ },
      calls := [.postLineage plan.source.valueString plan.target.valueString] }

/-- Embeds Read of lineage_resource.go:118-134: decode the state, log,
and store the same record back; no API call is made. -/
def lineageRead (state : LineageResourceModel) : OpResult LineageResourceModel :=
  { diags := [], newState := some state, calls := [] }

/-- Embeds Update of lineage_resource.go:136-145: decode the plan and
store it as the new state; no diagnostic is reported and no API call is
made. -/
def lineageUpdate (plan : LineageResourceModel) : OpResult LineageResourceModel :=
  { diags := [], newState := some plan, calls := [] }

/-- Embeds Update of the variant lineage resource file (the unnamed
source, lines 139-144): report the Update Not Supported diagnostic and
return, storing nothing and calling nothing. -/
def lineageUpdateLegacy : OpResult LineageResourceModelLegacy :=
  { diags := [⟨"Update Not Supported",
      "Lineage resources cannot be updated. Changes to source or target require replacement."⟩],
    newState := none, calls := [] }

/-- Embeds Delete of lineage_resource.go:147-165. -/
def lineageDelete (state : LineageResourceModel) (err : Option String) :
    OpResult LineageResourceModel :=
  match err with
  | some e =>
    { diags := [⟨"Client Error", "Unable to delete lineage: " ++ e⟩],
      newState := none, calls := [.deleteLineage state.resourceID.valueString] }
  | none =>
    { diags := [], newState := none,
      calls := [.deleteLineage state.resourceID.valueString] }

/-! ## Sample records used by the concrete theorems -/

def mAsset0 : AssetResourceModel :=
  ⟨.null, .null, .null, .null, .null, .null, .null, .null, none, none, none,
   .null, .null, .null, .null, .null, .null, .null, .null, .null, .null, .null⟩

def wAsset0 : AssetWire :=
  { id := "a-1", name := "orders", typ := "Topic", description := "d"
    userDescription := "", parentMrn := "", query := "", queryLanguage := ""
    hasRunHistory := false, isStub := false
    createdAt := "", createdBy := "", updatedAt := "", lastSyncAt := "", mrn := "m"
    providers := ["s2", "s1"], tags := []
    metadata := none, schema := [], externalLinks := [], sources := [], environments := [] }

def mGloss0 : GlossaryResourceModel :=
  ⟨.null, .null, .null, .null, none, .null, .null, .null, .null⟩

def wGloss0 : GlossaryWire :=
  { id := "g-1", name := "Revenue", definition := "money in", description := ""
    parentTermID := "", createdAt := "", updatedAt := "", owners := [], metadata := none }

def mLineage0 : LineageResourceModel :=
  ⟨.value "mrn://asset/A", .value "mrn://asset/B", .unknown, .unknown⟩

/-! ## Claim C1 -/

theorem toCreateRequest_providers_of_upd (s : AssetResourceModel) (w : AssetWire) :
    (toCreateRequest (updateModelFromResponse s w)).providers = sortStr w.providers := by
  by_cases hp : w.providers.isEmpty
  · have : w.providers = [] := by simpa [List.isEmpty_iff] using hp
    simp [toCreateRequest, updateModelFromResponse, hp, TFSet.elemsOrEmpty, this, sortStr_nil]
  · simp [toCreateRequest, updateModelFromResponse, hp, TFSet.elemsOrEmpty, sortStr_idem]

theorem toCreateRequest_tags_of_upd (s : AssetResourceModel) (w : AssetWire) :
    (toCreateRequest (updateModelFromResponse s w)).tags = sortStr w.tags := by
  by_cases hp : w.tags.isEmpty
  · have : w.tags = [] := by simpa [List.isEmpty_iff] using hp
    simp [toCreateRequest, updateModelFromResponse, hp, TFSet.elemsOrEmpty,
      TFSet.isNullOrUnknown, this, sortStr_nil]
  · simp [toCreateRequest, updateModelFromResponse, hp, TFSet.elemsOrEmpty,
      TFSet.isNullOrUnknown, sortStr_idem]

theorem sorted_ite_tags (t : TFSet) :
    List.Sorted strLE (if t.isNullOrUnknown then [] else sortStr t.elemsOrEmpty) := by
  by_cases h : t.isNullOrUnknown <;> simp [h, sortStr_sorted]

/-- Claim C1: the outbound converters toCreateRequest and toUpdateRequest
emit the services and tags collections lexicographically sorted, the
inbound converter updateModelFromResponse re-sorts what the wire
response carries, and therefore converting state to wire to state and
to wire again yields the same sorted sequences: the round trip is
idempotent on the set-valued fields. -/
theorem claim1_set_fields_sorted_roundtrip :
    ∀ (s s2 : AssetResourceModel) (w : AssetWire),
      List.Sorted strLE (toCreateRequest s).providers ∧
      List.Sorted strLE (toCreateRequest s).tags ∧
      List.Sorted strLE (toUpdateRequest s).providers ∧
      List.Sorted strLE (toUpdateRequest s).tags ∧
      (toCreateRequest (updateModelFromResponse s w)).providers = sortStr w.providers ∧
      (toCreateRequest (updateModelFromResponse s w)).tags = sortStr w.tags ∧
      (toCreateRequest (updateModelFromResponse s2
          { w with providers := (toCreateRequest (updateModelFromResponse s w)).providers,
                   tags := (toCreateRequest (updateModelFromResponse s w)).tags })).providers
        = (toCreateRequest (updateModelFromResponse s w)).providers ∧
      (toCreateRequest (updateModelFromResponse s2
          { w with providers := (toCreateRequest (updateModelFromResponse s w)).providers,
                   tags := (toCreateRequest (updateModelFromResponse s w)).tags })).tags
        = (toCreateRequest (updateModelFromResponse s w)).tags := by
  intro s s2 w
  refine ⟨sortStr_sorted _, sorted_ite_tags _, sortStr_sorted _, sorted_ite_tags _,
    toCreateRequest_providers_of_upd s w, toCreateRequest_tags_of_upd s w, ?_, ?_⟩
  · rw [toCreateRequest_providers_of_upd]
    simp [toCreateRequest_providers_of_upd s w, sortStr_idem]
  · rw [toCreateRequest_tags_of_upd]
    simp [toCreateRequest_tags_of_upd s w, sortStr_idem]

/-! ## Claim C2 -/

/-- Claim C2 counterexample: a glossary wire response without a
metadata map converts, on Read, to a null declarative metadata field,
not to an explicit empty mapping as the claim states for every
string-map field. -/
theorem claim2_counterexample :
    wGloss0.metadata = none ∧
    (glossaryUpdateModelFromResponse mGloss0 wGloss0).metadata = TFMap.null ∧
    TFMap.null ≠ TFMap.value [] := by
  refine ⟨rfl, rfl, by decide⟩

theorem mapSurvivors_sort_nil_iff (l : List (String × TFString)) :
    mapSurvivors (l.insertionSort tfPairLE) = [] ↔ mapSurvivors l = [] := by
  have hp : List.Perm (mapSurvivors (l.insertionSort tfPairLE)) (mapSurvivors l) :=
    (List.perm_insertionSort tfPairLE l).filterMap _
  constructor
  · intro h
    have hl := hp.length_eq
    rw [h] at hl
    exact List.length_eq_zero.mp hl.symm
  · intro h
    have hl := hp.length_eq
    rw [h] at hl
    exact List.length_eq_zero.mp hl

theorem mapToDictionary_eq_none_iff (l : List (String × TFString)) :
    mapToDictionary (.value l) = none ↔ mapSurvivors l = [] := by
  unfold mapToDictionary
  by_cases hl : l.isEmpty
  · have h0 : l = [] := by simpa [List.isEmpty_iff] using hl
    subst h0
    simp [mapSurvivors]
  · simp only [hl, if_false]
    by_cases hk : (mapSurvivors (l.insertionSort tfPairLE)).isEmpty
    · rw [List.isEmpty_iff] at hk
      simp [hk, List.isEmpty_iff, (mapSurvivors_sort_nil_iff l).mp hk]
    · have hk2 : mapSurvivors (l.insertionSort tfPairLE) ≠ [] := by
        simpa [List.isEmpty_iff] using hk
      have hl2 : mapSurvivors l ≠ [] := fun h => hk2 ((mapSurvivors_sort_nil_iff l).mpr h)
      simp [hk, hl2]

/-- Claim C2 as amended: the outbound mapToDictionary converter of the
asset resource omits the field (returns nil) exactly when the
declarative map is null, unknown, or has no entry whose value survives
the null and unknown drop; on Read the asset resource populates an
absent or empty wire metadata or schema map as an explicit empty
mapping, while the glossary resource sets an absent or empty wire
metadata map to null. -/
theorem claim2_amended :
    ∀ (l : List (String × TFString)) (mo : AssetResourceModel) (w : AssetWire)
      (g : GlossaryResourceModel) (t : GlossaryWire),
      (mapToDictionary .null = none) ∧
      (mapToDictionary .unknown = none) ∧
      (mapToDictionary (.value l) = none ↔ mapSurvivors l = []) ∧
      ((updateModelFromResponse mo { w with metadata := none }).metadata = .value []) ∧
      ((updateModelFromResponse mo { w with metadata := some [] }).metadata = .value []) ∧
      ((updateModelFromResponse mo { w with schema := [] }).schema = .value []) ∧
      ((glossaryUpdateModelFromResponse g { t with metadata := none }).metadata = .null) ∧
      ((glossaryUpdateModelFromResponse g { t with metadata := some [] }).metadata = .null) := by
  intro l mo w g t
  refine ⟨rfl, rfl, mapToDictionary_eq_none_iff l, ?_, ?_, ?_, ?_, ?_⟩ <;>
    simp [updateModelFromResponse, glossaryUpdateModelFromResponse]

/-! ## Claim C3 -/

/-- Claim C3 counterexample: Update of the lineage resource file at
internal/provider/lineage_resource.go, run on a concrete plan, appends
no diagnostic at all (and so no usage-error diagnostic) and stores the
plan as the new state. -/
theorem claim3_counterexample :
    (lineageUpdate mLineage0).diags = [] ∧
    (lineageUpdate mLineage0).calls = [] ∧
    (lineageUpdate mLineage0).newState = some mLineage0 := by
  exact ⟨rfl, rfl, rfl⟩

/-- Claim C3 as amended: a lineage Update never calls the API client;
the variant lineage file rejects the update with the Update Not
Supported usage-error diagnostic and stores nothing, but the Update of
internal/provider/lineage_resource.go reports no diagnostic and stores
the plan unchanged as the new state. -/
theorem claim3_amended :
    ∀ plan : LineageResourceModel,
      (lineageUpdate plan).calls = [] ∧
      (lineageUpdate plan).diags = [] ∧
      (lineageUpdate plan).newState = some plan ∧
      lineageUpdateLegacy.calls = [] ∧
      lineageUpdateLegacy.newState = none ∧
      lineageUpdateLegacy.diags =
        [⟨"Update Not Supported",
          "Lineage resources cannot be updated. Changes to source or target require replacement."⟩] := by
  intro plan
  exact ⟨rfl, rfl, rfl, rfl, rfl, rfl⟩

/-! ## Claim C4 -/

/-- Claim C4: with the not-found tolerance of the delete endpoint
modelled from the spec into the generated client (clientDeleteErr), a
Delete whose service outcome is not-found completes without any error
diagnostic for each of the three resources, while any other failure
outcome produces one. -/
theorem claim4_delete_tolerates_not_found :
    ∀ (a : AssetResourceModel) (g : GlossaryResourceModel) (l : LineageResourceModel)
      (m : String),
      (assetDelete a (clientDeleteErr .notFound)).diags = [] ∧
      (glossaryDelete g (clientDeleteErr .notFound)).diags = [] ∧
      (lineageDelete l (clientDeleteErr .notFound)).diags = [] ∧
      (assetDelete a (clientDeleteErr (.failure m))).diags ≠ [] ∧
      (glossaryDelete g (clientDeleteErr (.failure m))).diags ≠ [] ∧
      (lineageDelete l (clientDeleteErr (.failure m))).diags ≠ [] := by
  intro a g l m
  refine ⟨rfl, rfl, rfl, ?_, ?_, ?_⟩ <;>
    simp [assetDelete, glossaryDelete, lineageDelete, clientDeleteErr]

/-! ## Claim C5 -/

/-- Claim C5 counterexample: an asset wire response whose description
is the empty string is stored, by updateModelFromResponse, as a present
empty-string value in the optional description field, not as null. -/
theorem claim5_counterexample :
    (updateModelFromResponse mAsset0 { wAsset0 with description := "" }).description
      = TFString.value "" ∧
    TFString.value "" ≠ TFString.null := by
  exact ⟨rfl, by decide⟩

/-- Claim C5 as amended: the inbound converters map an empty wire
string to null and a non-empty one to a present value holding exactly
that string for the optional scalars user description, parent mrn,
query, query language and external link icon of the asset and for the
description and parent term id of the glossary term; the description
field of the asset, however, is stored verbatim as a present value, so
an empty wire description becomes an empty-string value. -/
theorem claim5_amended :
    ∀ (mo : AssetResourceModel) (w : AssetWire) (lk : ExternalLinkWire)
      (g : GlossaryResourceModel) (t : GlossaryWire) (s : String),
      ((updateModelFromResponse mo w).userDescription = emptyToNull w.userDescription) ∧
      ((updateModelFromResponse mo w).parentMrn = emptyToNull w.parentMrn) ∧
      ((updateModelFromResponse mo w).query = emptyToNull w.query) ∧
      ((updateModelFromResponse mo w).queryLanguage = emptyToNull w.queryLanguage) ∧
      ((modelExternalLink lk).icon = emptyToNull lk.icon) ∧
      ((glossaryUpdateModelFromResponse g t).description = emptyToNull t.description) ∧
      ((glossaryUpdateModelFromResponse g t).parentTermID = emptyToNull t.parentTermID) ∧
      (emptyToNull s = .null ↔ s = "") ∧
      (emptyToNull s = .value s ↔ s ≠ "") ∧
      ((updateModelFromResponse mo w).description = .value w.description) := by
  intro mo w lk g t s
  refine ⟨rfl, rfl, rfl, rfl, rfl, rfl, rfl, ?_, ?_, rfl⟩
  · unfold emptyToNull
    by_cases h : s = "" <;> simp [h]
  · unfold emptyToNull
    by_cases h : s = "" <;> simp [h]

/-! ## Claim C6 -/

/-- Claim C6: the heterogeneous-map coercion applies the fixed per-kind
formats: an integer renders as its decimal string (3 to the string 3, and
any integer through intDec), a float as its six-decimal string (3 to
3.000000), and a boolean as the literal text true or false. -/
theorem claim6_coercion_formats :
    (convertMapToStringMapSorted [("k", .vint 3)] = [("k", "3")]) ∧
    (convertMapToStringMapSorted [("k", .vfloat 3 1)] = [("k", "3.000000")]) ∧
    (convertMapToStringMapSorted [("k", .vfloat 5 2)] = [("k", "2.500000")]) ∧
    (∀ n : Int, convertMapToStringMapSorted [("k", .vint n)] = [("k", intDec n)]) ∧
    (∀ b : Bool,
      convertMapToStringMapSorted [("k", .vbool b)]
        = [("k", if b then "true" else "false")]) := by
  refine ⟨by decide, by decide, by decide, ?_, ?_⟩
  · intro n
    simp [convertMapToStringMapSorted, coerceVal]
  · intro b
    cases b <;> decide

/-! ## Claim C7 -/

/-- Claim C8 counterexample: a lineage Create whose API call succeeds
with an empty returned identifier reports no error diagnostic and still
stores state, against the claim that every Create of the three entity
kinds fails on an empty identifier. -/
theorem claim8_counterexample :
    (lineageCreate mLineage0 (Except.ok ⟨"", ""⟩)).diags = [] ∧
    (lineageCreate mLineage0 (Except.ok ⟨"", ""⟩)).newState ≠ none := by
  refine ⟨rfl, by decide⟩

/-- Claim C8 as amended: the asset and glossary Create handlers report
an error diagnostic and store no state exactly when the returned
identifier is empty, and store the converted response otherwise; the
lineage Create stores the returned identifier and type unconditionally,
with no diagnostic, even when the identifier is empty. -/
theorem claim8_amended :
    ∀ (pa : AssetResourceModel) (w : AssetWire) (pg : GlossaryResourceModel)
      (t : GlossaryWire) (pl : LineageResourceModel) (p : LineagePayload) (e : String),
      ((assetCreate pa (.ok w)).newState
          = if w.id = "" then none else some (updateModelFromResponse pa w)) ∧
      ((assetCreate pa (.ok w)).diags
          = if w.id = "" then [⟨"API Error", "Asset created but no ID returned"⟩] else []) ∧
      ((assetCreate pa (.error e)).newState = none) ∧
      ((glossaryCreate pg (.ok t)).newState
          = if t.id = "" then none else some (glossaryUpdateModelFromResponse pg t)) ∧
      ((glossaryCreate pg (.ok t)).diags
          = if t.id = ""
            then [⟨"API Error", "Glossary term created but no ID returned"⟩] else []) ∧
      ((glossaryCreate pg (.error e)).newState = none) ∧
      ((lineageCreate pl (.ok p)).diags = []) ∧
      ((lineageCreate pl (.ok p)).newState
          = some { pl with resourceID := .value p.id, typ := .value p.typ }) := by
  intro pa w pg t pl p e
  refine ⟨?_, ?_, rfl, ?_, ?_, rfl, rfl, rfl⟩ <;>
    by_cases h : w.id = "" <;> by_cases h2 : t.id = "" <;>
    simp [assetCreate, glossaryCreate, h, h2]

/-! ## Claim C9 -/

/-- Claim C9: the Read of internal/provider/lineage_resource.go makes
no API call, appends no diagnostic, and stores back exactly the state
record it decoded, so an entity deleted out of band can never be
detected by this Read. -/
theorem claim9_lineage_read_frame :
    ∀ state : LineageResourceModel,
      (lineageRead state).calls = [] ∧
      (lineageRead state).diags = [] ∧
      (lineageRead state).newState = some state := by
  intro state
  exact ⟨rfl, rfl, rfl⟩

/-! ## Claim C10 -/

theorem pair_key_unique {α : Type} :
    ∀ (m : List (String × α)), (m.map Prod.fst).Nodup →
      ∀ {k : String} {a b : α}, (k, a) ∈ m → (k, b) ∈ m → a = b
  | [], _, _, _, _, ha, _ => absurd ha (List.not_mem_nil _)
  | (k0, v0) :: rest, hnd, k, a, b, ha, hb => by
    rw [List.map_cons, List.nodup_cons] at hnd
    rcases List.mem_cons.mp ha with ha0 | ha1 <;> rcases List.mem_cons.mp hb with hb0 | hb1
    · cases ha0; cases hb0; rfl
    · cases ha0
      exact absurd (List.mem_map_of_mem Prod.fst hb1) (by simpa using hnd.1)
    · cases hb0
      exact absurd (List.mem_map_of_mem Prod.fst ha1) (by simpa using hnd.1)
    · exact pair_key_unique rest hnd.2 ha1 hb1

theorem mem_convertMapToStringMapSorted (m : List (String × WireVal)) (k s : String) :
    (k, s) ∈ convertMapToStringMapSorted m ↔
      ∃ v, (k, v) ∈ m ∧ coerceVal v = some s := by
  unfold convertMapToStringMapSorted
  rw [List.mem_filterMap]
  constructor
  · rintro ⟨⟨k2, v⟩, hmem, hf⟩
    rw [List.mem_insertionSort keyLE] at hmem
    rw [Option.map_eq_some'] at hf
    obtain ⟨a, ha, hpair⟩ := hf
    cases hpair
    exact ⟨v, hmem, ha⟩
  · rintro ⟨v, hmem, hv⟩
    exact ⟨(k, v), (List.mem_insertionSort keyLE).mpr hmem, by simp [hv]⟩

/-- Claim C10: convertMapToStringMapSorted is total and carries no
diagnostics channel; its result holds an entry for a key exactly when
the input map holds a value under that key whose coercion succeeds, and
an entry whose value is nil or whose coerced form is empty (in
particular an empty-string value) is dropped from the result. -/
theorem claim10_coercion_total_drops :
    ∀ (m : List (String × WireVal)) (k s : String) (v : WireVal),
      (m.map Prod.fst).Nodup →
      (((k, s) ∈ convertMapToStringMapSorted m ↔
          ∃ u, (k, u) ∈ m ∧ coerceVal u = some s) ∧
       ((k, v) ∈ m → coerceVal v = none →
          ∀ t, (k, t) ∉ convertMapToStringMapSorted m) ∧
       (coerceVal .vnil = none) ∧
       (coerceVal (.vstr "") = none)) := by
  intro m k s v hnd
  refine ⟨mem_convertMapToStringMapSorted m k s, ?_, rfl, rfl⟩
  intro hv hnone t ht
  obtain ⟨u, hu, hus⟩ := (mem_convertMapToStringMapSorted m k t).mp ht
  have : u = v := pair_key_unique m hnd hu hv
  rw [this, hnone] at hus
  exact Option.noConfusion hus

/-- Claim C10 witness: the drop clause of the theorem at a concrete
two-entry map whose first entry carries an empty-string value. -/
theorem claim10_witness :
    (([("a", WireVal.vstr ""), ("b", WireVal.vint 1)].map Prod.fst).Nodup) ∧
    ("a", "x") ∉ convertMapToStringMapSorted [("a", WireVal.vstr ""), ("b", WireVal.vint 1)] := by
  have hnd : ([("a", WireVal.vstr ""), ("b", WireVal.vint 1)].map Prod.fst).Nodup := by
    decide
  exact ⟨hnd,
    (claim10_coercion_total_drops [("a", WireVal.vstr ""), ("b", WireVal.vint 1)]
      "a" "x" (WireVal.vstr "") hnd).2.1 (by decide) (by decide) "x"⟩
